import Mathlib

/-!
Verification of the MediSense diagnosis pipeline.

This file embeds the core request pipeline of the repository
(`src/lib/medicalLogic.ts` and the `POST /api/diagnose` handler in
`server.ts`) as executable Lean definitions and proves properties of the
embedding.

Modelling conventions:
* JavaScript runtime primitives (`parseInt`, `parseFloat`, `String.split`,
  truthiness of strings, `NaN`-absorbing comparisons, `Array.sort`) are
  modelled by small Lean functions defined below; `NaN` is represented by
  `Option.none`.
* The SHA-256 fingerprints (cache key, audit hashes) are modelled by the
  data that is hashed: `JSON.stringify` over a fixed key set followed by
  SHA-256 is injective up to hash collisions, which the design treats as
  impossible ("with overwhelming probability"), so a fingerprint is
  identified with the canonical tuple it digests.
* The external model call, the SQLite audit insert and the in-process
  NodeCache are represented by an explicit provider-outcome parameter, an
  event trace and an explicit cache store threaded through the handler.
-/

namespace MediSense

/-- Value of a decimal digit character (only meaningful on `isDigit` chars). -/
def digitVal (c : Char) : Nat := c.toNat - 48

/-- Value of a list of decimal digit characters, most significant first. -/
def digitsToNat (ds : List Char) : Nat := ds.foldl (fun a c => a * 10 + digitVal c) 0

/-- Leading-digit prefix value of a character list; `none` when no leading digit. -/
def natPrefixVal (cs : List Char) : Option Nat :=
  let ds := cs.takeWhile (fun c => c.isDigit)
  if ds.isEmpty then none else some (digitsToNat ds)

/-- Model of the ECMAScript `parseInt(s)` primitive at the default radix 10:
skip leading whitespace, optional sign, then the longest digit prefix;
`none` models the `NaN` result when no digit is found. (Hex prefixes are not
modelled; no caller of the pipeline feeds them.) -/
def jsParseInt (s : String) : Option Int :=
  let cs := s.data.dropWhile (fun c => c.isWhitespace)
  match cs with
  | '-' :: rest => (natPrefixVal rest).map (fun n => -(n : Int))
  | '+' :: rest => (natPrefixVal rest).map (fun n => (n : Int))
  | _ => (natPrefixVal cs).map (fun n => (n : Int))

/-- A finite JS number written as a decimal literal, kept in scaled-integer
form: the value is `mantissa / 10 ^ shift`. Kept unreduced so that all
comparisons are integer comparisons. -/
structure JsNumber where
  mantissa : Int
  shift : Nat
deriving DecidableEq, Repr

/-- The rational value of a scaled-decimal JS number. -/
def JsNumber.toRat (x : JsNumber) : ℚ := (x.mantissa : ℚ) / (10 : ℚ) ^ x.shift

/-- JS `<` on two finite numbers, as the equivalent cross-multiplied
integer comparison. -/
def JsNumber.blt (a b : JsNumber) : Bool :=
  decide (a.mantissa * (10 : Int) ^ b.shift < b.mantissa * (10 : Int) ^ a.shift)

/-- Negation of a scaled-decimal JS number. -/
def JsNumber.neg (x : JsNumber) : JsNumber := { mantissa := -x.mantissa, shift := x.shift }

/-- Longest decimal-literal prefix `digits [. digits]` of a character list;
`none` when no digit is consumed. -/
def decPrefixVal (cs : List Char) : Option JsNumber :=
  let intDs := cs.takeWhile (fun c => c.isDigit)
  let rest := cs.dropWhile (fun c => c.isDigit)
  match rest with
  | '.' :: rest2 =>
      let fracDs := rest2.takeWhile (fun c => c.isDigit)
      if intDs.isEmpty && fracDs.isEmpty then none
      else some
        { mantissa := (digitsToNat intDs * 10 ^ fracDs.length + digitsToNat fracDs : Int)
          shift := fracDs.length }
  | _ =>
      if intDs.isEmpty then none
      else some { mantissa := (digitsToNat intDs : Int), shift := 0 }

/-- Model of the ECMAScript `parseFloat(s)` primitive: skip leading
whitespace, optional sign, then the longest decimal-literal prefix; `none`
models `NaN`. (Exponent notation and `Infinity` are not modelled; the
pipeline only compares the result against small integer bounds.) -/
def jsParseFloat (s : String) : Option JsNumber :=
  let cs := s.data.dropWhile (fun c => c.isWhitespace)
  match cs with
  | '-' :: rest => (decPrefixVal rest).map JsNumber.neg
  | '+' :: rest => decPrefixVal rest
  | _ => decPrefixVal cs

/-- JS truthiness of an optional string field: present and non-empty. -/
def truthy : Option String → Bool
  | some s => s != ""
  | none => false

/-- JS `<` on possibly-`NaN` integers: any comparison involving `NaN` is false. -/
def jsLt : Option Int → Option Int → Bool
  | some a, some b => decide (a < b)
  | _, _ => false

/-- JS `>` on possibly-`NaN` integers: any comparison involving `NaN` is false. -/
def jsGt : Option Int → Option Int → Bool
  | some a, some b => decide (b < a)
  | _, _ => false

/-- Tail of `jsSplit`: split a character list on a separator character. -/
def splitCharsOn (sep : Char) : List Char → List Char → List String
  | [], acc => [acc.reverse.asString]
  | c :: rest, acc =>
      if c = sep then acc.reverse.asString :: splitCharsOn sep rest []
      else splitCharsOn sep rest (c :: acc)

/-- Model of JS `s.split(sep)` for a one-character separator: every
occurrence separates, empty pieces are kept, `"".split(sep) = [""]`. -/
def jsSplit (s : String) (sep : Char) : List String := splitCharsOn sep s.data []

/-! ## Data model (`src/lib/medicalLogic.ts`) -/

/-- Structure `Vitals` from `medicalLogic.ts`: all four fields optional strings. -/
structure Vitals where
  temperature : Option String := none
  bloodPressure : Option String := none
  heartRate : Option String := none
  spO2 : Option String := none
deriving DecidableEq, Repr

/-- Structure `Demographics` from `medicalLogic.ts`. -/
structure Demographics where
  age : Option String := none
  gender : Option String := none
  preExistingConditions : Option String := none
deriving DecidableEq, Repr

/-- Return shape of `validateVitals`: `{ valid, error?, suggestion? }`. -/
structure ValidationResult where
  valid : Bool
  error : Option String := none
  suggestion : Option String := none
deriving DecidableEq, Repr

/-- The temperature branch of the JS guard
`!isNaN(temp) && (temp < 30 || temp > 45)` with `NaN` as `none`. -/
def tempOutOfRange : Option JsNumber → Bool
  | some t => t.blt { mantissa := 30, shift := 0 } || JsNumber.blt { mantissa := 45, shift := 0 } t
  | none => false

/-- The failure value of `validateVitals` for an out-of-range temperature. -/
def tempInvalidResult : ValidationResult :=
  { valid := false
    error := some "The temperature provided is outside of physiological limits."
    suggestion := some "Please double-check your thermometer reading and try again." }

/-- The failure value of `validateVitals` for a rejected blood pressure. -/
def bpInvalidResult : ValidationResult :=
  { valid := false
    error := some "The blood pressure reading appears to be invalid."
    suggestion := some "Ensure systolic (top number) is higher than diastolic (bottom number) and re-enter." }

/-- Function `validateVitals` from `medicalLogic.ts` lines 14-42, transcribed clause
by clause: missing vitals are valid; a present, non-empty, parseable
temperature outside [30, 45] fails; otherwise a present, non-empty blood
pressure that splits into exactly two parts on `/` fails when
`systolic < diastolic || systolic > 300 || diastolic < 20` under JS `NaN`
comparison semantics; everything else is valid. -/
def validateVitals : Option Vitals → ValidationResult
  | none => { valid := true }
  | some vitals =>
      if truthy vitals.temperature &&
          tempOutOfRange (jsParseFloat (vitals.temperature.getD "")) then
        tempInvalidResult
      else if truthy vitals.bloodPressure then
        match jsSplit (vitals.bloodPressure.getD "") '/' with
        | [p1, p2] =>
            let systolic := jsParseInt p1
            let diastolic := jsParseInt p2
            if jsLt systolic diastolic || jsGt systolic (some 300) ||
                jsLt diastolic (some 20) then
              bpInvalidResult
            else { valid := true }
        | _ => { valid := true }
      else { valid := true }

/-- The pre-existing-conditions text reached by `demographics?.preExistingConditions`. -/
def preExisting (demographics : Option Demographics) : Option String :=
  demographics.bind (fun d => d.preExistingConditions)

/-- Function `selectModel` from `medicalLogic.ts` lines 44-51: escalate to the pro
tier when the addendum exceeds 200 characters, the pre-existing-conditions
text exceeds 50 characters, or the symptom array has length above 5.
The JS truthiness guards (`additionalInfo && ...`) are preserved. -/
def selectModel (symptoms : List String) (additionalInfo : Option String)
    (demographics : Option Demographics) : String :=
  let isComplex :=
    (truthy additionalInfo && decide ((additionalInfo.getD "").length > 200)) ||
    (truthy (preExisting demographics) &&
      decide (((preExisting demographics).getD "").length > 50)) ||
    decide (symptoms.length > 5)
  if isComplex then "gemini-3.1-pro-preview" else "gemini-3-flash-preview"

/-! ## The `POST /api/diagnose` pipeline (`server.ts`)

The handler is embedded as a pure function from the request, the caller
identity, the behaviour of the external model call, the cache store and the
current time (seconds) to a response, an updated cache store and a trace of
side-effect events (cache lookup, provider invocation, audit insert, cache
write), in the order the source performs them. -/

/-- Lexicographic comparison of two character lists by code point. -/
def charListLe : List Char → List Char → Bool
  | [], _ => true
  | _ :: _, [] => false
  | a :: as, b :: bs =>
      if a.toNat < b.toNat then true
      else if b.toNat < a.toNat then false
      else charListLe as bs

/-- Lexicographic string comparison by code point. -/
def strLe (a b : String) : Bool := charListLe a.data b.data

/-- Insert a string into a list that is sorted by `strLe`. -/
def insertSorted (s : String) : List String → List String
  | [] => [s]
  | b :: bs => if strLe s b then s :: b :: bs else b :: insertSorted s bs

/-- JS `symptoms.sort()` on an array of strings, realised as insertion sort
by `strLe`. The default JS comparator orders strings by UTF-16 code unit;
only two facts about the sort reach any property — the result is sorted by
a fixed total order and is a permutation of the input — so the exact total
order chosen is immaterial and the code-point order stands in for it. -/
def jsSortStrings : List String → List String
  | [] => []
  | a :: as => insertSorted a (jsSortStrings as)

/-- Cache key from `getCacheKey` (`server.ts` lines 81-84):
`sha256(JSON.stringify({ symptoms: symptoms.sort(), vitals, demographics }))`.
The serialize-then-hash step is modelled by the digested data itself
(injective up to SHA-256 collisions, which the design rules out). -/
structure CacheKey where
  sortedSymptoms : List String
  vitals : Option Vitals
  demographics : Option Demographics
deriving DecidableEq, Repr

/-- Function `getCacheKey(symptoms, vitals, demographics)` from `server.ts`. -/
def getCacheKey (symptoms : List String) (vitals : Option Vitals)
    (demographics : Option Demographics) : CacheKey :=
  { sortedSymptoms := jsSortStrings symptoms
    vitals := vitals
    demographics := demographics }

/-- Parsed provider response: the pipeline only inspects the
`inconclusive` flag; the remaining parsed fields (summary, conditions,
disclaimer) are abstracted into `payload`. -/
structure Diagnosis where
  inconclusive : Bool
  payload : String := ""
deriving DecidableEq, Repr

/-- A completed `generateContent` call: `rawText` is `result.text || ""`
and `parsed` is the result of `JSON.parse` on it (`none` models a
`SyntaxError` thrown by `JSON.parse`, which the `catch` turns into a 500). -/
structure ProviderResult where
  rawText : String
  parsed : Option Diagnosis
deriving DecidableEq, Repr

/-- Outcome of the external model call: it either resolves with a payload
or rejects with an error carrying a `name`. -/
inductive ProviderOutcome where
  | returns (r : ProviderResult)
  | throws (errorName : String)
deriving DecidableEq, Repr

/-- Behaviour of the external model for one invocation. `durationMs` is how
long the call takes. In the source (`server.ts` lines 246-258) a 25-second
timer fires `controller.abort()`, but the abort signal of the controller is
never passed to `genAI.models.generateContent` — its config carries only
`model`, `contents` and `responseMimeType` — so the call is awaited to
completion whatever its duration: the handler result is independent of
`durationMs`, and the `AbortError` branch of the `catch` can only trigger
if the SDK itself rejects with an error named `AbortError`. -/
structure ProviderBehavior where
  durationMs : Nat
  outcome : ProviderOutcome
deriving DecidableEq, Repr

/-- Row inserted into `audit_logs` (`server.ts` lines 262-270). `input_hash`
is `sha256(JSON.stringify({ symptoms, additionalInfo, vitals, demographics }))`
computed after `getCacheKey` sorted the symptoms array in place, and
`response_hash` is `sha256(result.text || "")`; both hashes are modelled by
the digested data. -/
structure AuditRecord where
  user_uid : String
  model_used : String
  inputSymptoms : List String
  inputAdditionalInfo : Option String
  inputVitals : Option Vitals
  inputDemographics : Option Demographics
  responseRaw : String
deriving DecidableEq, Repr

/-- Side effects of one request, in program order. -/
inductive Event where
  | cacheGet (key : CacheKey)
  | providerCall (model : String)
  | auditWrite (record : AuditRecord)
  | cacheSet (key : CacheKey)
deriving DecidableEq, Repr

/-- Whether an event is an invocation of the external model. -/
def isProviderCall : Event → Bool
  | .providerCall _ => true
  | _ => false

/-- Response sent to the client: an error JSON `{ code, error, suggestion }`
with its HTTP status, or the parsed diagnosis with status 200. -/
inductive ApiResponse where
  | error (status : Nat) (code : String) (message : String) (suggestion : String)
  | ok (d : Diagnosis)
deriving DecidableEq, Repr

/-- The `stdTTL` of the NodeCache in seconds (`server.ts` line 77): 6 hours. -/
def cacheTTLSeconds : Nat := 6 * 60 * 60

/-- One NodeCache entry with its insertion time. -/
structure CacheEntry where
  key : CacheKey
  value : Diagnosis
  insertedAt : Nat
deriving DecidableEq, Repr

/-- The NodeCache contents, newest entry first. -/
abbrev CacheStore := List CacheEntry

/-- Operation `diagnosisCache.get(key)` at time `now`: an entry is readable until its
TTL elapses; lazy expiry means an expired entry simply stops being
returned. -/
def cacheGet (store : CacheStore) (now : Nat) (key : CacheKey) : Option Diagnosis :=
  match store.find? (fun e => e.key == key) with
  | some e => if now < e.insertedAt + cacheTTLSeconds then some e.value else none
  | none => none

/-- Operation `diagnosisCache.set(key, value)` at time `now`. -/
def cacheSet (store : CacheStore) (now : Nat) (key : CacheKey) (value : Diagnosis) :
    CacheStore :=
  ({ key := key, value := value, insertedAt := now } : CacheEntry) ::
    store.filter (fun e => !(e.key == key))

/-- The `symptoms` field of the JSON body: absent/falsy, present but not an
array, or an array of strings. -/
inductive SymptomsField where
  | missing
  | notArray
  | arr (symptoms : List String)
deriving DecidableEq, Repr

/-- Body of a `POST /api/diagnose` request (the `wearableData` field only
feeds the prompt text, which no property inspects, and is omitted). -/
structure DiagnoseRequest where
  symptoms : SymptomsField
  additionalInfo : Option String := none
  vitals : Option Vitals := none
  demographics : Option Demographics := none
deriving DecidableEq, Repr

/-- The rejection guard `!symptoms || !Array.isArray(symptoms) ||
symptoms.length === 0` (`server.ts` line 173). -/
def symptomsRejected : SymptomsField → Bool
  | .missing => true
  | .notArray => true
  | .arr l => l.isEmpty

/-- Result of one handler run: response, cache store after the run, and the
side-effect trace. -/
structure HandlerOutput where
  response : ApiResponse
  cache : CacheStore
  events : List Event
deriving DecidableEq, Repr

/-- The 422 CONFLICTING_VITALS early exit (`server.ts` lines 165-171). -/
def conflictingVitalsOutput (vv : ValidationResult) (cache : CacheStore) : HandlerOutput :=
  { response := .error 422 "CONFLICTING_VITALS" (vv.error.getD "") (vv.suggestion.getD "")
    cache := cache
    events := [] }

/-- The 400 INCONCLUSIVE_SYMPTOMS early exit (`server.ts` lines 173-179). -/
def noSymptomsOutput (cache : CacheStore) : HandlerOutput :=
  { response := .error 400 "INCONCLUSIVE_SYMPTOMS" "No symptoms were selected."
      "Please select at least one symptom from the list or body map."
    cache := cache
    events := [] }

/-- The 422 INCONCLUSIVE_SYMPTOMS response for a self-reported inconclusive
diagnosis (`server.ts` lines 273-279). -/
def inconclusiveResponse : ApiResponse :=
  .error 422 "INCONCLUSIVE_SYMPTOMS"
    "The symptoms provided are too vague for a reliable assessment."
    "Try adding more specific symptoms or using the \x27Additional Details\x27 field to describe your condition in more detail."

/-- The 504 API_TIMEOUT response (`server.ts` lines 291-297). -/
def timeoutResponse : ApiResponse :=
  .error 504 "API_TIMEOUT" "The analysis is taking longer than expected."
    "Our AI is currently busy. Please try again in a few moments."

/-- The generic 500 SERVER_ERROR response (`server.ts` lines 299-303). -/
def serverErrorResponse : ApiResponse :=
  .error 500 "SERVER_ERROR" "An unexpected error occurred during analysis."
    "Please try again. If the problem persists, check your internet connection."

/-- The cache-miss path of the handler (`server.ts` lines 191-304): select
the model tier, invoke the provider (the prompt text feeds only the
provider and is not inspected by any property), then dispatch on the
outcome. On a rejection named `AbortError` answer 504, on any other
rejection or a `JSON.parse` failure answer 500 — in all three cases without
touching the audit log or the cache. On a parsed response insert the audit
row, then answer 422 if `diagnosis.inconclusive`, otherwise answer the
diagnosis, writing the cache entry first iff no addendum was supplied. -/
def missPath (symptoms : List String) (req : DiagnoseRequest) (userUid : String)
    (provider : ProviderBehavior) (cache : CacheStore) (now : Nat) : HandlerOutput :=
  let sorted := jsSortStrings symptoms
  let cacheKey := getCacheKey symptoms req.vitals req.demographics
  let modelName := selectModel sorted req.additionalInfo req.demographics
  match provider.outcome with
  | .throws errorName =>
      if errorName == "AbortError" then
        { response := timeoutResponse
          cache := cache
          events := [.cacheGet cacheKey, .providerCall modelName] }
      else
        { response := serverErrorResponse
          cache := cache
          events := [.cacheGet cacheKey, .providerCall modelName] }
  | .returns r =>
      match r.parsed with
      | none =>
          { response := serverErrorResponse
            cache := cache
            events := [.cacheGet cacheKey, .providerCall modelName] }
      | some diagnosis =>
          let auditRecord : AuditRecord :=
            { user_uid := userUid
              model_used := modelName
              inputSymptoms := sorted
              inputAdditionalInfo := req.additionalInfo
              inputVitals := req.vitals
              inputDemographics := req.demographics
              responseRaw := r.rawText }
          if diagnosis.inconclusive then
            { response := inconclusiveResponse
              cache := cache
              events := [.cacheGet cacheKey, .providerCall modelName,
                .auditWrite auditRecord] }
          else if truthy req.additionalInfo then
            { response := .ok diagnosis
              cache := cache
              events := [.cacheGet cacheKey, .providerCall modelName,
                .auditWrite auditRecord] }
          else
            { response := .ok diagnosis
              cache := cacheSet cache now cacheKey diagnosis
              events := [.cacheGet cacheKey, .providerCall modelName,
                .auditWrite auditRecord, .cacheSet cacheKey] }

/-- The cache consultation (`server.ts` lines 181-192): compute the key,
read the cache, and serve the cached value iff one is present and no
addendum was supplied (`if (cachedResult && !additionalInfo)`); otherwise
continue on the miss path. -/
def diagnoseCore (symptoms : List String) (req : DiagnoseRequest) (userUid : String)
    (provider : ProviderBehavior) (cache : CacheStore) (now : Nat) : HandlerOutput :=
  let cacheKey := getCacheKey symptoms req.vitals req.demographics
  match cacheGet cache now cacheKey with
  | some hit =>
      if truthy req.additionalInfo then
        missPath symptoms req userUid provider cache now
      else
        { response := .ok hit, cache := cache, events := [.cacheGet cacheKey] }
  | none => missPath symptoms req userUid provider cache now

/-- The `POST /api/diagnose` handler (`server.ts` lines 159-305): validate
vitals first (422 on failure), then reject a missing/non-array/empty
symptom list (400), then run the cache consultation and miss path. -/
def handleDiagnose (req : DiagnoseRequest) (userUid : String)
    (provider : ProviderBehavior) (cache : CacheStore) (now : Nat) : HandlerOutput :=
  let vitalsValidation := validateVitals req.vitals
  if !vitalsValidation.valid then
    conflictingVitalsOutput vitalsValidation cache
  else if symptomsRejected req.symptoms then
    noSymptomsOutput cache
  else
    match req.symptoms with
    | .arr symptoms => diagnoseCore symptoms req userUid provider cache now
    | _ => noSymptomsOutput cache

/-! ## Concrete inputs used by counterexamples and witnesses -/

/-- A provider behaviour that no claim run should ever consult. -/
def dummyProvider : ProviderBehavior :=
  { durationMs := 0, outcome := .throws "NeverRaised" }

/-- A provider call that takes 26 seconds and then resolves with a
conclusive diagnosis. -/
def slowProvider : ProviderBehavior :=
  { durationMs := 26000
    outcome := .returns
      { rawText := "RAW", parsed := some { inconclusive := false, payload := "flu" } } }

/-- A provider call resolving with a self-reported inconclusive diagnosis. -/
def inconclusiveProvider : ProviderBehavior :=
  { durationMs := 10
    outcome := .returns
      { rawText := "RAWINC", parsed := some { inconclusive := true, payload := "" } } }

/-- A provider call resolving with a conclusive diagnosis. -/
def okProvider : ProviderBehavior :=
  { durationMs := 10
    outcome := .returns
      { rawText := "RAWOK", parsed := some { inconclusive := false, payload := "ok" } } }

/-! ## Facts about the canonical sort -/

theorem charListLe_total : ∀ x y : List Char, charListLe x y = true ∨ charListLe y x = true
  | [], _ => Or.inl rfl
  | _ :: _, [] => Or.inr rfl
  | a :: as, b :: bs => by
      rcases Nat.lt_trichotomy a.toNat b.toNat with h | h | h
      · left; simp [charListLe, h]
      · rcases charListLe_total as bs with ih | ih
        · left; simp [charListLe, h, ih]
        · right; simp [charListLe, h, ih]
      · right; simp [charListLe, h]

theorem charListLe_trans :
    ∀ x y z : List Char, charListLe x y = true → charListLe y z = true → charListLe x z = true
  | [], _, _, _, _ => rfl
  | _ :: _, [], _, h1, _ => by simp [charListLe] at h1
  | _ :: _, _ :: _, [], _, h2 => by simp [charListLe] at h2
  | a :: as, b :: bs, c :: cs, h1, h2 => by
      rcases Nat.lt_trichotomy a.toNat b.toNat with hab | hab | hab
      · rcases Nat.lt_trichotomy b.toNat c.toNat with hbc | hbc | hbc
        · simp [charListLe, Nat.lt_trans hab hbc]
        · have hac : a.toNat < c.toNat := by rw [← hbc]; exact hab
          simp [charListLe, hac]
        · simp [charListLe, hbc, Nat.lt_asymm hbc] at h2
      · rcases Nat.lt_trichotomy b.toNat c.toNat with hbc | hbc | hbc
        · have hac : a.toNat < c.toNat := by rw [hab]; exact hbc
          simp [charListLe, hac]
        · have h1' : charListLe as bs = true := by simpa [charListLe, hab] using h1
          have h2' : charListLe bs cs = true := by simpa [charListLe, hbc] using h2
          have hac : a.toNat = c.toNat := hab.trans hbc
          simpa [charListLe, hac] using charListLe_trans as bs cs h1' h2'
        · simp [charListLe, hbc, Nat.lt_asymm hbc] at h2
      · simp [charListLe, hab, Nat.lt_asymm hab] at h1

theorem charListLe_antisymm :
    ∀ x y : List Char, charListLe x y = true → charListLe y x = true → x = y
  | [], [], _, _ => rfl
  | [], _ :: _, _, h2 => by simp [charListLe] at h2
  | _ :: _, [], h1, _ => by simp [charListLe] at h1
  | a :: as, b :: bs, h1, h2 => by
      rcases Nat.lt_trichotomy a.toNat b.toNat with hab | hab | hab
      · simp [charListLe, hab, Nat.lt_asymm hab] at h2
      · have h1' : charListLe as bs = true := by simpa [charListLe, hab] using h1
        have h2' : charListLe bs as = true := by simpa [charListLe, hab] using h2
        have hchar : a = b := Char.eq_of_val_eq (UInt32.ext hab)
        rw [hchar, charListLe_antisymm as bs h1' h2']
      · simp [charListLe, hab, Nat.lt_asymm hab] at h1

theorem strLe_total (a b : String) : strLe a b = true ∨ strLe b a = true :=
  charListLe_total a.data b.data

theorem strLe_trans {a b c : String} (h1 : strLe a b = true) (h2 : strLe b c = true) :
    strLe a c = true :=
  charListLe_trans a.data b.data c.data h1 h2

theorem strLe_antisymm : ∀ {a b : String}, strLe a b = true → strLe b a = true → a = b
  | ⟨x⟩, ⟨y⟩, h1, h2 => congrArg String.mk (charListLe_antisymm x y h1 h2)

theorem perm_insertSorted (s : String) : ∀ l : List String, List.Perm (insertSorted s l) (s :: l)
  | [] => List.Perm.refl _
  | b :: bs => by
      cases hsb : strLe s b with
      | true => simp [insertSorted, hsb]
      | false =>
          simp only [insertSorted, hsb, Bool.false_eq_true, if_false]
          exact (((perm_insertSorted s bs).cons b).trans (List.Perm.swap s b bs))

theorem perm_jsSortStrings : ∀ l : List String, List.Perm (jsSortStrings l) l
  | [] => List.Perm.refl _
  | a :: as =>
      (perm_insertSorted a (jsSortStrings as)).trans ((perm_jsSortStrings as).cons a)

theorem strSorted_insertSorted (s : String) :
    ∀ l : List String, l.Pairwise (fun x y => strLe x y = true) →
      (insertSorted s l).Pairwise (fun x y => strLe x y = true)
  | [], _ => by simp [insertSorted]
  | b :: bs, h => by
      rcases List.pairwise_cons.mp h with ⟨hb, hbs⟩
      cases hsb : strLe s b with
      | false =>
          simp only [insertSorted, hsb, Bool.false_eq_true, if_false]
          refine List.Pairwise.cons ?_ (strSorted_insertSorted s bs hbs)
          intro y hy
          rcases List.mem_cons.mp ((perm_insertSorted s bs).mem_iff.mp hy) with heq | hy'
          · rw [heq]
            rcases strLe_total s b with h1 | h1
            · rw [h1] at hsb; cases hsb
            · exact h1
          · exact hb y hy'
      | true =>
          simp only [insertSorted, hsb, if_true]
          refine List.Pairwise.cons ?_ h
          intro y hy
          rcases List.mem_cons.mp hy with rfl | hy'
          · exact hsb
          · exact strLe_trans hsb (hb y hy')

theorem strSorted_jsSortStrings :
    ∀ l : List String, (jsSortStrings l).Pairwise (fun x y => strLe x y = true)
  | [] => List.Pairwise.nil
  | a :: as => strSorted_insertSorted a _ (strSorted_jsSortStrings as)

theorem eq_of_perm_of_strSorted :
    ∀ l₁ l₂ : List String, List.Perm l₁ l₂ →
      l₁.Pairwise (fun x y => strLe x y = true) →
      l₂.Pairwise (fun x y => strLe x y = true) → l₁ = l₂
  | [], _, p, _, _ => p.nil_eq
  | a :: as, [], p, _, _ => absurd p.eq_nil (List.cons_ne_nil a as)
  | a :: as, b :: bs, p, h₁, h₂ => by
      by_cases hab : a = b
      · subst hab
        rw [eq_of_perm_of_strSorted as bs p.cons_inv
          (List.pairwise_cons.mp h₁).2 (List.pairwise_cons.mp h₂).2]
      · have ha : a ∈ b :: bs := p.subset (List.mem_cons_self a as)
        have hbmem : b ∈ a :: as := p.symm.subset (List.mem_cons_self b bs)
        have ha' : a ∈ bs := by
          rcases List.mem_cons.mp ha with h | h
          · exact absurd h hab
          · exact h
        have hb' : b ∈ as := by
          rcases List.mem_cons.mp hbmem with h | h
          · exact absurd h.symm hab
          · exact h
        have h1 : strLe a b = true := (List.pairwise_cons.mp h₁).1 b hb'
        have h2 : strLe b a = true := (List.pairwise_cons.mp h₂).1 a ha'
        exact absurd (strLe_antisymm h1 h2) hab

theorem jsSortStrings_eq_of_perm {l₁ l₂ : List String} (p : List.Perm l₁ l₂) :
    jsSortStrings l₁ = jsSortStrings l₂ :=
  eq_of_perm_of_strSorted _ _
    ((perm_jsSortStrings l₁).trans (p.trans (perm_jsSortStrings l₂).symm))
    (strSorted_jsSortStrings l₁) (strSorted_jsSortStrings l₂)

theorem perm_of_jsSortStrings_eq {l₁ l₂ : List String}
    (h : jsSortStrings l₁ = jsSortStrings l₂) : List.Perm l₁ l₂ :=
  ((perm_jsSortStrings l₁).symm.trans (h ▸ List.Perm.refl (jsSortStrings l₁))).trans
    (perm_jsSortStrings l₂)

/-! ## Bridging facts for the JS number model -/

theorem JsNumber.blt_iff (a b : JsNumber) : a.blt b = true ↔ a.toRat < b.toRat := by
  simp only [JsNumber.blt, JsNumber.toRat, decide_eq_true_eq]
  rw [div_lt_div_iff₀ (by positivity) (by positivity)]
  constructor
  · intro h; exact_mod_cast h
  · intro h; exact_mod_cast h

theorem tempOutOfRange_iff (x : JsNumber) :
    tempOutOfRange (some x) = true ↔ x.toRat < 30 ∨ 45 < x.toRat := by
  have h30 : ({ mantissa := 30, shift := 0 } : JsNumber).toRat = 30 := by
    norm_num [JsNumber.toRat]
  have h45 : ({ mantissa := 45, shift := 0 } : JsNumber).toRat = 45 := by
    norm_num [JsNumber.toRat]
  simp [tempOutOfRange, JsNumber.blt_iff, h30, h45]

theorem jsParseFloat_empty : jsParseFloat "" = none := rfl

/-! ## Facts about the model selector -/

theorem selectModel_eq_pro_iff (symptoms : List String) (ai : Option String)
    (demo : Option Demographics) :
    selectModel symptoms ai demo = "gemini-3.1-pro-preview" ↔
      ((truthy ai && decide (200 < (ai.getD "").length)) ||
       (truthy (preExisting demo) && decide (50 < ((preExisting demo).getD "").length)) ||
       decide (5 < symptoms.length)) = true := by
  unfold selectModel
  cases hc : ((truthy ai && decide (200 < (ai.getD "").length)) ||
      (truthy (preExisting demo) && decide (50 < ((preExisting demo).getD "").length)) ||
      decide (5 < symptoms.length)) with
  | true => simp [hc]
  | false => simp [hc]

theorem truthy_and_length_gt (n : Nat) (ai : Option String) :
    (truthy ai && decide (n < (ai.getD "").length)) = true ↔ n < (ai.getD "").length := by
  cases ai with
  | none => simp [truthy]
  | some s =>
      simp only [truthy, Option.getD, Bool.and_eq_true, decide_eq_true_eq, bne_iff_ne, ne_eq]
      constructor
      · rintro ⟨_, h⟩; exact h
      · intro h
        refine ⟨?_, h⟩
        intro hs
        rw [hs] at h
        exact absurd h (by simp)

/-! ## Facts about the cache store -/

theorem cacheGet_cacheSet_same (store : CacheStore) (now t : Nat) (key : CacheKey)
    (v : Diagnosis) :
    cacheGet (cacheSet store now key v) t key =
      if t < now + cacheTTLSeconds then some v else none := by
  simp [cacheGet, cacheSet, List.find?]

/-! ## Unfolding facts for the handler -/

theorem handleDiagnose_to_core (req : DiagnoseRequest) (uid : String) (p : ProviderBehavior)
    (cache : CacheStore) (now : Nat) (symptoms : List String)
    (hsym : req.symptoms = .arr symptoms) (hne : symptoms ≠ [])
    (hvalid : (validateVitals req.vitals).valid = true) :
    handleDiagnose req uid p cache now = diagnoseCore symptoms req uid p cache now := by
  have hemp : symptoms.isEmpty = false := by
    cases symptoms with
    | nil => exact absurd rfl hne
    | cons a as => rfl
  simp [handleDiagnose, hvalid, hsym, symptomsRejected, hemp]

theorem diagnoseCore_miss (symptoms : List String) (req : DiagnoseRequest) (uid : String)
    (p : ProviderBehavior) (cache : CacheStore) (now : Nat)
    (h : cacheGet cache now (getCacheKey symptoms req.vitals req.demographics) = none) :
    diagnoseCore symptoms req uid p cache now = missPath symptoms req uid p cache now := by
  simp [diagnoseCore, h]

theorem diagnoseCore_addendum (symptoms : List String) (req : DiagnoseRequest) (uid : String)
    (p : ProviderBehavior) (cache : CacheStore) (now : Nat)
    (hai : truthy req.additionalInfo = true) :
    diagnoseCore symptoms req uid p cache now = missPath symptoms req uid p cache now := by
  cases hc : cacheGet cache now (getCacheKey symptoms req.vitals req.demographics) with
  | none => simp [diagnoseCore, hc]
  | some hit => simp [diagnoseCore, hc, hai]

theorem diagnoseCore_hit (symptoms : List String) (req : DiagnoseRequest) (uid : String)
    (p : ProviderBehavior) (cache : CacheStore) (now : Nat) (hit : Diagnosis)
    (hc : cacheGet cache now (getCacheKey symptoms req.vitals req.demographics) = some hit)
    (hai : truthy req.additionalInfo = false) :
    diagnoseCore symptoms req uid p cache now =
      { response := .ok hit
        cache := cache
        events := [.cacheGet (getCacheKey symptoms req.vitals req.demographics)] } := by
  simp [diagnoseCore, hc, hai]

/-! ## The claims -/

/-- C1: the claim says a provider call that exceeds the 25-second deadline
yields an API_TIMEOUT (504) response and writes no audit record. The code
intends this (it arms a 25-second `AbortController`) but never passes the
abort signal of the controller to `generateContent`, so the call is awaited to
completion regardless of duration. Here a call taking 26 seconds that then
resolves is processed as a normal success: the parsed diagnosis is
returned, the audit row is written and the cache is populated, and the
response is not the API_TIMEOUT response. In the embedding this is visible
in `handleDiagnose` being independent of `ProviderBehavior.durationMs`. -/
theorem c1_timeout_not_enforced :
    slowProvider.durationMs > 25000 ∧
    handleDiagnose { symptoms := .arr ["Fever"] } "anonymous" slowProvider [] 0 =
      { response := .ok { inconclusive := false, payload := "flu" }
        cache := [{ key := getCacheKey ["Fever"] none none
                    value := { inconclusive := false, payload := "flu" }
                    insertedAt := 0 }]
        events := [.cacheGet (getCacheKey ["Fever"] none none),
          .providerCall "gemini-3-flash-preview",
          .auditWrite { user_uid := "anonymous", model_used := "gemini-3-flash-preview",
                        inputSymptoms := ["Fever"], inputAdditionalInfo := none,
                        inputVitals := none, inputDemographics := none, responseRaw := "RAW" },
          .cacheSet (getCacheKey ["Fever"] none none)] } ∧
    (handleDiagnose { symptoms := .arr ["Fever"] } "anonymous" slowProvider [] 0).response ≠
      timeoutResponse := by
  refine ⟨by decide, by decide, by decide⟩

/-- C2 counterexample: the claim says duplicates collapse — a list
containing duplicates produces the same key as the deduplicated list. The
code only sorts (`symptoms.sort()`) and never deduplicates, so
`["Fever", "Fever"]` and `["Fever"]` digest different canonical data and
produce different keys. -/
theorem c2_counterexample_duplicates :
    getCacheKey ["Fever", "Fever"] none none ≠ getCacheKey ["Fever"] none none := by
  decide

/-- C2 (amended): with the same vitals and demographics, two symptom lists
produce the same cache key exactly when they are permutations of each
other — so key generation is order-insensitive, and any two lists that
differ as multisets (in particular any two distinct symptom sets) produce
different keys. Duplicates are preserved, not collapsed. -/
theorem c2_cache_key_characterization :
    (∀ (l₁ l₂ : List String) (v : Option Vitals) (d : Option Demographics),
        getCacheKey l₁ v d = getCacheKey l₂ v d ↔ List.Perm l₁ l₂) ∧
    (∀ (l₁ l₂ : List String) (v : Option Vitals) (d : Option Demographics),
        ((∃ s, s ∈ l₁ ∧ ¬ s ∈ l₂) ∨ (∃ s, s ∈ l₂ ∧ ¬ s ∈ l₁)) →
        getCacheKey l₁ v d ≠ getCacheKey l₂ v d) := by
  have hkey : ∀ (l₁ l₂ : List String) (v : Option Vitals) (d : Option Demographics),
      getCacheKey l₁ v d = getCacheKey l₂ v d ↔ List.Perm l₁ l₂ := by
    intro l₁ l₂ v d
    constructor
    · intro h
      exact perm_of_jsSortStrings_eq (congrArg CacheKey.sortedSymptoms h)
    · intro p
      simp [getCacheKey, jsSortStrings_eq_of_perm p]
  refine ⟨hkey, ?_⟩
  intro l₁ l₂ v d hdiff heq
  have p := (hkey l₁ l₂ v d).mp heq
  rcases hdiff with ⟨s, hs₁, hs₂⟩ | ⟨s, hs₁, hs₂⟩
  · exact hs₂ (p.subset hs₁)
  · exact hs₂ (p.symm.subset hs₁)

/-- Witness for C2: a concrete permutation pair with equal keys and a
concrete distinct pair with different keys. -/
theorem c2_witness :
    getCacheKey ["Fever", "Cough"] none none = getCacheKey ["Cough", "Fever"] none none ∧
    getCacheKey ["Fever"] none none ≠ getCacheKey ["Cough"] none none := by
  constructor
  · exact (c2_cache_key_characterization.1 ["Fever", "Cough"] ["Cough", "Fever"]
      none none).mpr (by decide)
  · exact c2_cache_key_characterization.2 ["Fever"] ["Cough"] none none
      (Or.inl ⟨"Fever", by decide, by decide⟩)

/-- C3 counterexample: the claim says `s ≤ d` is rejected, but the code
tests the strict `systolic < diastolic`, so the boundary reading
`"120/120"` (systolic = diastolic = 120) is accepted as valid. -/
theorem c3_counterexample_equal_bp :
    jsSplit "120/120" '/' = ["120", "120"] ∧
    jsParseInt "120" = some 120 ∧
    validateVitals (some { bloodPressure := some "120/120" }) = { valid := true } := by
  refine ⟨by decide, by decide, by decide⟩

/-- C3 (amended): for every blood-pressure string splittable into exactly
two numeric parts (s, d) on the slash, if s < d (strictly), or s > 300, or
d < 20, then `validateVitals` returns invalid with the "appears to be
invalid" error and the systolic/diastolic ordering hint; for (120, 80) it
returns valid. -/
theorem c3_bp_validation :
    (∀ (bp p1 p2 : String) (s d : Int),
        jsSplit bp '/' = [p1, p2] →
        jsParseInt p1 = some s → jsParseInt p2 = some d →
        (s < d ∨ 300 < s ∨ d < 20) →
        validateVitals (some { bloodPressure := some bp }) = bpInvalidResult) ∧
    validateVitals (some { bloodPressure := some "120/80" }) = { valid := true } := by
  constructor
  · intro bp p1 p2 s d hsplit hs hd hbad
    have hbp : bp ≠ "" := by
      intro hbp
      subst hbp
      simp [jsSplit, splitCharsOn] at hsplit
    rcases hbad with h | h | h <;>
      simp [validateVitals, truthy, Option.getD, hbp, hsplit, hs, hd, jsLt, jsGt, h]
  · decide

/-- Witness for C3: `"80/120"` has systolic strictly below diastolic and is
rejected with the blood-pressure error. -/
theorem c3_witness :
    validateVitals (some { bloodPressure := some "80/120" }) = bpInvalidResult :=
  c3_bp_validation.1 "80/120" "80" "120" 80 120 (by decide) (by decide) (by decide)
    (Or.inl (by decide))

/-- C4 counterexample, refuting two parts of the claim as stated. First, for
a request carrying a non-empty addendum the cache is still read from:
`diagnosisCache.get(cacheKey)` runs before the addendum is consulted, so the
trace contains the cache lookup. Second, "the provider is invoked at most
once across both calls" fails for a repeated no-addendum request whose
first response is inconclusive: nothing is cached, so the second identical
call invokes the provider again. -/
theorem c4_counterexample :
    Event.cacheGet (getCacheKey ["Fever", "Cough"] none none) ∈
      (handleDiagnose { symptoms := .arr ["Fever", "Cough"], additionalInfo := some "felt dizzy" }
        "anonymous" okProvider [] 0).events ∧
    Event.providerCall "gemini-3-flash-preview" ∈
      (handleDiagnose { symptoms := .arr ["Fever", "Cough"] } "anonymous"
        inconclusiveProvider [] 0).events ∧
    Event.providerCall "gemini-3-flash-preview" ∈
      (handleDiagnose { symptoms := .arr ["Fever", "Cough"] } "anonymous" inconclusiveProvider
        (handleDiagnose { symptoms := .arr ["Fever", "Cough"] } "anonymous"
          inconclusiveProvider [] 0).cache 1).events := by
  refine ⟨by decide, by decide, by decide⟩

/-- C4 (amended): for a request repeated identically within the cache TTL
window whose first run reaches the provider on a cache miss and obtains a
conclusive, parseable response: if it carries no addendum, the second call
is served from the cache, the external provider is invoked exactly once
across both calls, and both calls return the identical response. If the
request carries a non-empty addendum, the provider is invoked on every
call, the cache lookup still occurs but its result is never used (the
response does not depend on the cache contents), and the cache is never
written. -/
theorem c4_cache_behaviour :
    (∀ (req : DiagnoseRequest) (symptoms : List String) (uid₁ uid₂ : String)
        (p₁ p₂ : ProviderBehavior) (r : ProviderResult) (diagnosis : Diagnosis)
        (cache : CacheStore) (t₁ t₂ : Nat),
        req.symptoms = .arr symptoms → symptoms ≠ [] →
        (validateVitals req.vitals).valid = true →
        truthy req.additionalInfo = false →
        cacheGet cache t₁ (getCacheKey symptoms req.vitals req.demographics) = none →
        p₁.outcome = .returns r → r.parsed = some diagnosis →
        diagnosis.inconclusive = false →
        t₂ < t₁ + cacheTTLSeconds →
        (handleDiagnose req uid₁ p₁ cache t₁).response = .ok diagnosis ∧
        (handleDiagnose req uid₂ p₂ (handleDiagnose req uid₁ p₁ cache t₁).cache t₂).response =
          .ok diagnosis ∧
        (handleDiagnose req uid₂ p₂ (handleDiagnose req uid₁ p₁ cache t₁).cache t₂).events =
          [.cacheGet (getCacheKey symptoms req.vitals req.demographics)] ∧
        ((handleDiagnose req uid₁ p₁ cache t₁).events.filter isProviderCall).length = 1) ∧
    (∀ (req : DiagnoseRequest) (symptoms : List String) (uid : String)
        (p : ProviderBehavior) (cache : CacheStore) (now : Nat),
        req.symptoms = .arr symptoms → symptoms ≠ [] →
        (validateVitals req.vitals).valid = true →
        truthy req.additionalInfo = true →
        Event.providerCall
            (selectModel (jsSortStrings symptoms) req.additionalInfo req.demographics) ∈
          (handleDiagnose req uid p cache now).events ∧
        (handleDiagnose req uid p cache now).cache = cache ∧
        (∀ key, ¬ Event.cacheSet key ∈ (handleDiagnose req uid p cache now).events) ∧
        (∀ cache' : CacheStore,
          (handleDiagnose req uid p cache' now).response =
            (handleDiagnose req uid p cache now).response)) := by
  constructor
  · intro req symptoms uid₁ uid₂ p₁ p₂ r diagnosis cache t₁ t₂ hsym hne hvalid hai hmiss
      hout hp hinc ht
    have h1 : handleDiagnose req uid₁ p₁ cache t₁ =
        { response := .ok diagnosis
          cache := cacheSet cache t₁ (getCacheKey symptoms req.vitals req.demographics) diagnosis
          events := [.cacheGet (getCacheKey symptoms req.vitals req.demographics),
            .providerCall (selectModel (jsSortStrings symptoms) req.additionalInfo
              req.demographics),
            .auditWrite { user_uid := uid₁
                          model_used := selectModel (jsSortStrings symptoms) req.additionalInfo
                            req.demographics
                          inputSymptoms := jsSortStrings symptoms
                          inputAdditionalInfo := req.additionalInfo
                          inputVitals := req.vitals
                          inputDemographics := req.demographics
                          responseRaw := r.rawText },
            .cacheSet (getCacheKey symptoms req.vitals req.demographics)] } := by
      rw [handleDiagnose_to_core req uid₁ p₁ cache t₁ symptoms hsym hne hvalid,
        diagnoseCore_miss symptoms req uid₁ p₁ cache t₁ hmiss]
      simp [missPath, hout, hp, hinc, hai]
    have h2get : cacheGet (handleDiagnose req uid₁ p₁ cache t₁).cache t₂
        (getCacheKey symptoms req.vitals req.demographics) = some diagnosis := by
      rw [h1]
      rw [cacheGet_cacheSet_same]
      simp [ht]
    have h2 : handleDiagnose req uid₂ p₂ (handleDiagnose req uid₁ p₁ cache t₁).cache t₂ =
        { response := .ok diagnosis
          cache := (handleDiagnose req uid₁ p₁ cache t₁).cache
          events := [.cacheGet (getCacheKey symptoms req.vitals req.demographics)] } := by
      rw [handleDiagnose_to_core req uid₂ p₂ (handleDiagnose req uid₁ p₁ cache t₁).cache t₂
        symptoms hsym hne hvalid]
      exact diagnoseCore_hit symptoms req uid₂ p₂ _ t₂ diagnosis h2get hai
    refine ⟨by rw [h1], by rw [h2], by rw [h2], ?_⟩
    rw [h1]
    simp [isProviderCall]
  · intro req symptoms uid p cache now hsym hne hvalid hai
    have hcore : ∀ c : CacheStore,
        handleDiagnose req uid p c now = missPath symptoms req uid p c now := by
      intro c
      rw [handleDiagnose_to_core req uid p c now symptoms hsym hne hvalid,
        diagnoseCore_addendum symptoms req uid p c now hai]
    refine ⟨?_, ?_, ?_, ?_⟩
    · rw [hcore cache]
      rcases hr : p.outcome with r | e
      · rcases hpp : r.parsed with _ | d
        · simp [missPath, hr, hpp]
        · cases hdi : d.inconclusive
          · simp [missPath, hr, hpp, hdi, hai]
          · simp [missPath, hr, hpp, hdi]
      · cases he : (e == "AbortError") <;> simp [missPath, hr, he]
    · rw [hcore cache]
      rcases hr : p.outcome with r | e
      · rcases hpp : r.parsed with _ | d
        · simp [missPath, hr, hpp]
        · cases hdi : d.inconclusive
          · simp [missPath, hr, hpp, hdi, hai]
          · simp [missPath, hr, hpp, hdi]
      · cases he : (e == "AbortError") <;> simp [missPath, hr, he]
    · intro key
      rw [hcore cache]
      rcases hr : p.outcome with r | e
      · rcases hpp : r.parsed with _ | d
        · simp [missPath, hr, hpp]
        · cases hdi : d.inconclusive
          · simp [missPath, hr, hpp, hdi, hai]
          · simp [missPath, hr, hpp, hdi]
      · cases he : (e == "AbortError") <;> simp [missPath, hr, he]
    · intro cache'
      rw [hcore cache, hcore cache']
      rcases hr : p.outcome with r | e
      · rcases hpp : r.parsed with _ | d
        · simp [missPath, hr, hpp]
        · cases hdi : d.inconclusive
          · simp [missPath, hr, hpp, hdi, hai]
          · simp [missPath, hr, hpp, hdi]
      · cases he : (e == "AbortError") <;> simp [missPath, hr, he]

/-- Witness for C4: both halves instantiated on concrete runs — a
no-addendum request served from cache on its second call, and an
addendum-carrying request whose runs never write the cache. -/
theorem c4_witness :
    ((handleDiagnose { symptoms := .arr ["Fever", "Cough"] } "anonymous" okProvider [] 0).response =
        .ok { inconclusive := false, payload := "ok" } ∧
      (handleDiagnose { symptoms := .arr ["Fever", "Cough"] } "u2" dummyProvider
        (handleDiagnose { symptoms := .arr ["Fever", "Cough"] } "anonymous"
          okProvider [] 0).cache 1).response = .ok { inconclusive := false, payload := "ok" }) ∧
    (handleDiagnose { symptoms := .arr ["Fever", "Cough"], additionalInfo := some "hi" }
        "anonymous" okProvider [] 0).cache = [] := by
  have h1 := c4_cache_behaviour.1 { symptoms := .arr ["Fever", "Cough"] } ["Fever", "Cough"]
    "anonymous" "u2" okProvider dummyProvider
    { rawText := "RAWOK", parsed := some { inconclusive := false, payload := "ok" } }
    { inconclusive := false, payload := "ok" } [] 0 1
    rfl (by decide) (by decide) (by decide) (by decide) rfl rfl rfl (by decide)
  have h2 := c4_cache_behaviour.2
    { symptoms := .arr ["Fever", "Cough"], additionalInfo := some "hi" } ["Fever", "Cough"]
    "anonymous" okProvider [] 0 rfl (by decide) (by decide) (by decide)
  exact ⟨⟨h1.1, h1.2.1⟩, h2.2.1⟩

/-- C5: a provider response that parses with `inconclusive = true` yields
the 422 INCONCLUSIVE_SYMPTOMS response with the add-more-detail suggestion,
and the audit row — input fingerprint, raw-output fingerprint, model tier
and caller identity — is written. The trace shows the audit write ordered
before the handler returns the inconclusive response, so inconclusive
attempts are always audited. -/
theorem c5_inconclusive_audited (req : DiagnoseRequest) (symptoms : List String) (uid : String)
    (provider : ProviderBehavior) (r : ProviderResult) (diagnosis : Diagnosis)
    (cache : CacheStore) (now : Nat)
    (hsym : req.symptoms = .arr symptoms) (hne : symptoms ≠ [])
    (hvalid : (validateVitals req.vitals).valid = true)
    (hmiss : cacheGet cache now (getCacheKey symptoms req.vitals req.demographics) = none ∨
      truthy req.additionalInfo = true)
    (hout : provider.outcome = .returns r) (hp : r.parsed = some diagnosis)
    (hinc : diagnosis.inconclusive = true) :
    handleDiagnose req uid provider cache now =
      { response := inconclusiveResponse
        cache := cache
        events := [.cacheGet (getCacheKey symptoms req.vitals req.demographics),
          .providerCall (selectModel (jsSortStrings symptoms) req.additionalInfo
            req.demographics),
          .auditWrite { user_uid := uid
                        model_used := selectModel (jsSortStrings symptoms) req.additionalInfo
                          req.demographics
                        inputSymptoms := jsSortStrings symptoms
                        inputAdditionalInfo := req.additionalInfo
                        inputVitals := req.vitals
                        inputDemographics := req.demographics
                        responseRaw := r.rawText }] } := by
  rw [handleDiagnose_to_core req uid provider cache now symptoms hsym hne hvalid]
  rcases hmiss with hm | hai
  · rw [diagnoseCore_miss symptoms req uid provider cache now hm]
    simp [missPath, hout, hp, hinc]
  · rw [diagnoseCore_addendum symptoms req uid provider cache now hai]
    simp [missPath, hout, hp, hinc]

/-- Witness for C5: a concrete inconclusive run, audited and answered with
the 422 INCONCLUSIVE_SYMPTOMS response. -/
theorem c5_witness :
    handleDiagnose { symptoms := .arr ["Fever"] } "u" inconclusiveProvider [] 0 =
      { response := inconclusiveResponse
        cache := []
        events := [.cacheGet (getCacheKey ["Fever"] none none),
          .providerCall "gemini-3-flash-preview",
          .auditWrite { user_uid := "u", model_used := "gemini-3-flash-preview",
                        inputSymptoms := ["Fever"], inputAdditionalInfo := none,
                        inputVitals := none, inputDemographics := none,
                        responseRaw := "RAWINC" }] } :=
  c5_inconclusive_audited { symptoms := .arr ["Fever"] } ["Fever"] "u" inconclusiveProvider
    { rawText := "RAWINC", parsed := some { inconclusive := true, payload := "" } }
    { inconclusive := true, payload := "" } [] 0
    rfl (by decide) (by decide) (Or.inl rfl) rfl rfl rfl

/-- C6 counterexample: the claim reads the escalation trigger as "the
symptom set has more than 5 members". The code tests `symptoms.length > 5`
on the raw array, which counts duplicates: six copies of "Fever" — a
symptom set with a single member — select the higher-capability tier,
refuting the claimed equivalence. -/
theorem c6_counterexample_duplicates :
    selectModel (List.replicate 6 "Fever") none none = "gemini-3.1-pro-preview" ∧
    ∀ s, s ∈ List.replicate 6 "Fever" → s = "Fever" := by
  refine ⟨by decide, by decide⟩

/-- C6 (amended): `selectModel` returns the higher-capability tier iff the
addendum exceeds 200 characters, or the pre-existing-conditions text
exceeds 50 characters, or the symptom list has more than 5 entries
(duplicates counted); otherwise it returns the baseline tier. It is a pure
function of its three arguments. -/
theorem c6_select_model (symptoms : List String) (ai : Option String)
    (demo : Option Demographics) :
    (selectModel symptoms ai demo = "gemini-3.1-pro-preview" ↔
      200 < (ai.getD "").length ∨ 50 < ((preExisting demo).getD "").length ∨
        5 < symptoms.length) ∧
    (selectModel symptoms ai demo = "gemini-3.1-pro-preview" ∨
      selectModel symptoms ai demo = "gemini-3-flash-preview") := by
  constructor
  · rw [selectModel_eq_pro_iff]
    simp only [Bool.or_eq_true, decide_eq_true_eq, truthy_and_length_gt]
    tauto
  · unfold selectModel
    cases hc : ((truthy ai && decide (200 < (ai.getD "").length)) ||
        (truthy (preExisting demo) && decide (50 < ((preExisting demo).getD "").length)) ||
        decide (5 < symptoms.length)) with
    | true => left; simp [hc]
    | false => right; simp [hc]

/-- Witness for C6: six distinct symptoms escalate, one symptom with no
addendum and no demographics stays on the baseline tier. -/
theorem c6_witness :
    selectModel ["a", "b", "c", "d", "e", "f"] none none = "gemini-3.1-pro-preview" ∧
    selectModel ["a"] none none = "gemini-3-flash-preview" := by
  constructor
  · exact (c6_select_model ["a", "b", "c", "d", "e", "f"] none none).1.mpr (by decide)
  · rcases (c6_select_model ["a"] none none).2 with hp | hf
    · have := (c6_select_model ["a"] none none).1.mp hp
      simp [preExisting] at this
    · exact hf

/-- C7: a present, parseable temperature outside [30, 45] makes
`validateVitals` fail with the "outside physiological limits" error, which
the handler surfaces as a 422 CONFLICTING_VITALS response; a temperature
inside the range, endpoints included, passes the temperature check — the
result is the same as if no temperature had been supplied. -/
theorem c7_temperature_validation :
    (∀ (v : Vitals) (t : String) (x : JsNumber),
        v.temperature = some t → jsParseFloat t = some x →
        (x.toRat < 30 ∨ 45 < x.toRat) →
        validateVitals (some v) = tempInvalidResult) ∧
    (∀ (v : Vitals) (t : String) (x : JsNumber),
        v.temperature = some t → jsParseFloat t = some x →
        30 ≤ x.toRat → x.toRat ≤ 45 →
        validateVitals (some v) = validateVitals (some { v with temperature := none })) ∧
    (∀ (req : DiagnoseRequest) (uid : String) (p : ProviderBehavior) (cache : CacheStore)
        (now : Nat),
        (validateVitals req.vitals).valid = false →
        handleDiagnose req uid p cache now =
          { response := .error 422 "CONFLICTING_VITALS"
              ((validateVitals req.vitals).error.getD "")
              ((validateVitals req.vitals).suggestion.getD "")
            cache := cache
            events := [] }) := by
  refine ⟨?_, ?_, ?_⟩
  · intro v t x hvt hparse hout
    have ht : t ≠ "" := by
      intro h
      rw [h, jsParseFloat_empty] at hparse
      cases hparse
    have hguard : (truthy v.temperature &&
        tempOutOfRange (jsParseFloat (v.temperature.getD ""))) = true := by
      rw [hvt]
      simp [truthy, Option.getD, hparse, ht, tempOutOfRange_iff, hout]
    simp [validateVitals, hguard]
  · intro v t x hvt hparse h30 h45
    have hnot : tempOutOfRange (some x) = false := by
      rw [← Bool.not_eq_true, tempOutOfRange_iff]
      push_neg
      exact ⟨h30, h45⟩
    have hguard : (truthy v.temperature &&
        tempOutOfRange (jsParseFloat (v.temperature.getD ""))) = false := by
      rw [hvt]
      simp [Option.getD, hparse, hnot]
    simp [validateVitals, hguard, show truthy none = false from rfl]
  · intro req uid p cache now hinvalid
    simp [handleDiagnose, hinvalid, conflictingVitalsOutput]

/-- Witness for C7: 50 degrees is rejected (and surfaced as 422
CONFLICTING_VITALS by the handler), the endpoint 45 passes the temperature
check. -/
theorem c7_witness :
    validateVitals (some { temperature := some "50" }) = tempInvalidResult ∧
    validateVitals (some { temperature := some "45" }) =
      validateVitals (some { temperature := none }) ∧
    handleDiagnose { symptoms := .arr ["Fever"], vitals := some { temperature := some "50" } }
        "u" dummyProvider [] 0 =
      { response := .error 422 "CONFLICTING_VITALS"
          "The temperature provided is outside of physiological limits."
          "Please double-check your thermometer reading and try again."
        cache := []
        events := [] } := by
  refine ⟨?_, ?_, ?_⟩
  · exact c7_temperature_validation.1 { temperature := some "50" } "50"
      { mantissa := 50, shift := 0 } rfl (by decide)
      (Or.inr (by norm_num [JsNumber.toRat]))
  · exact c7_temperature_validation.2.1 { temperature := some "45" } "45"
      { mantissa := 45, shift := 0 } rfl (by decide)
      (by norm_num [JsNumber.toRat]) (by norm_num [JsNumber.toRat])
  · exact c7_temperature_validation.2.2
      { symptoms := .arr ["Fever"], vitals := some { temperature := some "50" } }
      "u" dummyProvider [] 0 (by decide)

/-- C8 counterexample: the claim says split parts that do not parse as
numbers are treated as not provided and can never cause validation failure.
But `parseInt` yields `NaN` only for the unparseable part: for `"x/10"` the
comparison `diastolic < 20` is `10 < 20` and validation fails even though
the systolic part is unparseable. -/
theorem c8_counterexample_nan_bp :
    jsParseInt "x" = none ∧
    validateVitals (some { bloodPressure := some "x/10" }) = bpInvalidResult := by
  refine ⟨by decide, by decide⟩

/-- C8 (amended): absent vitals are always valid; an unparseable (or
absent) temperature and a blood pressure that does not split into exactly
two parts are treated as not provided and never fail; when blood pressure
splits into two parts, an unparseable part only disables the comparisons
involving it — the other part is still checked against its own bound, so
`"x/10"` fails via diastolic < 20 and `"400/x"` fails via systolic > 300 —
and only when both parts are unparseable is the field effectively not
provided. -/
theorem c8_unparseable_fields :
    validateVitals none = { valid := true } ∧
    (∀ v : Vitals, jsParseFloat (v.temperature.getD "") = none →
        validateVitals (some v) = validateVitals (some { v with temperature := none })) ∧
    (∀ (v : Vitals) (bp : String), v.bloodPressure = some bp →
        (jsSplit bp '/').length ≠ 2 →
        validateVitals (some v) = validateVitals (some { v with bloodPressure := none })) ∧
    (∀ (v : Vitals) (bp p1 p2 : String), v.bloodPressure = some bp →
        jsSplit bp '/' = [p1, p2] →
        jsParseInt p1 = none → jsParseInt p2 = none →
        validateVitals (some v) = validateVitals (some { v with bloodPressure := none })) ∧
    validateVitals (some { bloodPressure := some "400/x" }) = bpInvalidResult ∧
    validateVitals (some { bloodPressure := some "x/y" }) = { valid := true } := by
  refine ⟨by decide, ?_, ?_, ?_, by decide, by decide⟩
  · intro v hparse
    have hguard : (truthy v.temperature &&
        tempOutOfRange (jsParseFloat (v.temperature.getD ""))) = false := by
      rw [hparse]
      simp [tempOutOfRange]
    simp [validateVitals, hguard, show truthy none = false from rfl]
  · intro v bp hbp hlen
    cases hg : (truthy v.temperature &&
        tempOutOfRange (jsParseFloat (v.temperature.getD ""))) with
    | true => simp [validateVitals, hg]
    | false =>
        by_cases hbe : bp = ""
        · subst hbe
          simp [validateVitals, hg, hbp, truthy, show truthy none = false from rfl]
        · have htb : truthy (some bp) = true := by simp [truthy, hbe]
          rcases hsp : jsSplit bp '/' with _ | ⟨x, _ | ⟨y, _ | ⟨z, zs⟩⟩⟩
          · simp [validateVitals, hg, hbp, htb, hsp,
              show truthy none = false from rfl]
          · simp [validateVitals, hg, hbp, htb, hsp,
              show truthy none = false from rfl]
          · rw [hsp] at hlen
            simp at hlen
          · simp [validateVitals, hg, hbp, htb, hsp,
              show truthy none = false from rfl]
  · intro v bp p1 p2 hbp hsp h1 h2
    cases hg : (truthy v.temperature &&
        tempOutOfRange (jsParseFloat (v.temperature.getD ""))) with
    | true => simp [validateVitals, hg]
    | false =>
        have hbe : bp ≠ "" := by
          intro h
          subst h
          simp [jsSplit, splitCharsOn] at hsp
        have htb : truthy (some bp) = true := by simp [truthy, hbe]
        simp [validateVitals, hg, hbp, htb, hsp, h1, h2, jsLt, jsGt,
          show truthy none = false from rfl]

/-- Witness for C8: an unparseable temperature, a one-part blood pressure
and a three-part blood pressure are all treated as not provided. -/
theorem c8_witness :
    validateVitals (some { temperature := some "hot" }) =
      validateVitals (some { temperature := none }) ∧
    validateVitals (some { bloodPressure := some "120" }) =
      validateVitals (some { bloodPressure := none }) ∧
    validateVitals (some { bloodPressure := some "abc/def" }) =
      validateVitals (some { bloodPressure := none }) := by
  refine ⟨c8_unparseable_fields.2.1 { temperature := some "hot" } (by decide),
    c8_unparseable_fields.2.2.1 { bloodPressure := some "120" } "120" rfl (by decide),
    c8_unparseable_fields.2.2.2.1 { bloodPressure := some "abc/def" } "abc/def" "abc" "def"
      rfl (by decide) (by decide) (by decide)⟩

/-- C9 counterexample: the claim says a request with an empty symptom list
deterministically gets a 400 INCONCLUSIVE_SYMPTOMS response regardless of
the other fields. But vitals validation runs first: an empty symptom list
together with an impossible temperature is answered with 422
CONFLICTING_VITALS, not INCONCLUSIVE_SYMPTOMS. -/
theorem c9_counterexample_vitals_first :
    handleDiagnose { symptoms := .arr [], vitals := some { temperature := some "100" } }
        "anonymous" dummyProvider [] 0 =
      { response := .error 422 "CONFLICTING_VITALS"
          "The temperature provided is outside of physiological limits."
          "Please double-check your thermometer reading and try again."
        cache := []
        events := [] } := by
  decide

/-- C9 (amended): for every request whose vitals pass validation and whose
symptom list is missing, not an array, or empty, the handler
deterministically returns the 400 INCONCLUSIVE_SYMPTOMS response with an
empty side-effect trace — no cache lookup, no provider invocation, no
audit record, no cache write — and leaves the cache unchanged. -/
theorem c9_empty_symptoms_rejected (req : DiagnoseRequest) (uid : String)
    (p : ProviderBehavior) (cache : CacheStore) (now : Nat)
    (hvalid : (validateVitals req.vitals).valid = true)
    (hrej : symptomsRejected req.symptoms = true) :
    handleDiagnose req uid p cache now = noSymptomsOutput cache := by
  simp [handleDiagnose, hvalid, hrej]

/-- Witness for C9: a missing list, a non-array value and an empty array
are all rejected with the 400 response and no side effects. -/
theorem c9_witness :
    handleDiagnose { symptoms := .missing } "u" dummyProvider [] 0 = noSymptomsOutput [] ∧
    handleDiagnose { symptoms := .notArray } "u" dummyProvider [] 0 = noSymptomsOutput [] ∧
    handleDiagnose { symptoms := .arr [] } "u" dummyProvider [] 0 = noSymptomsOutput [] :=
  ⟨c9_empty_symptoms_rejected { symptoms := .missing } "u" dummyProvider [] 0 rfl rfl,
   c9_empty_symptoms_rejected { symptoms := .notArray } "u" dummyProvider [] 0 rfl rfl,
   c9_empty_symptoms_rejected { symptoms := .arr [] } "u" dummyProvider [] 0 rfl rfl⟩

/-- C10: `validateVitals` reads only the temperature and bloodPressure
fields — two vitals agreeing on those two fields validate identically
whatever their heartRate and spO2, and no heartRate/spO2 value alone can
make validation fail. -/
theorem c10_heart_rate_spo2_ignored :
    (∀ v₁ v₂ : Vitals, v₁.temperature = v₂.temperature →
        v₁.bloodPressure = v₂.bloodPressure →
        validateVitals (some v₁) = validateVitals (some v₂)) ∧
    (∀ hr sp : Option String,
        validateVitals (some { heartRate := hr, spO2 := sp }) = { valid := true }) := by
  constructor
  · intro v₁ v₂ ht hbp
    cases v₁ with
    | mk t₁ b₁ h₁ s₁ =>
        cases v₂ with
        | mk t₂ b₂ h₂ s₂ =>
            have ht' : t₁ = t₂ := ht
            have hbp' : b₁ = b₂ := hbp
            subst ht'
            subst hbp'
            rfl
  · intro hr sp
    rfl

/-- Witness for C10: an extreme heart rate and an extreme SpO2 validate
exactly like each other (and pass). -/
theorem c10_witness :
    validateVitals (some { temperature := some "36.6", heartRate := some "999" }) =
      validateVitals (some { temperature := some "36.6", spO2 := some "-40" }) :=
  c10_heart_rate_spo2_ignored.1
    { temperature := some "36.6", heartRate := some "999" }
    { temperature := some "36.6", spO2 := some "-40" } rfl rfl

end MediSense

